import Mathlib

/-! Verification of the OctoPulse Game of Life engine.

Shallow embedding of the simulation core of `src/Script.ts`: the grid data
model, neighbor counting with toroidal wrap, the generation-update rule,
randomization, cell toggling, the pacing decision of the animation loop, and
the content-preserving resize.  Cell values are JS numbers holding small
integers, embedded as `Int`; a grid is the JS `number[][]`, embedded as a
list of rows.  Imperative fill loops (`for i; for j; target[i][j] = e`) over a
freshly allocated grid are embedded as the functional grid builder `mkGrid`,
whose cell `(i, j)` holds the value the loop body writes there; every such
loop in the source writes each cell exactly once, reading only from the
previous grid, so the builder computes the same final grid.
-/

namespace OctoPulse

/-- A grid: `number[][]`, a list of rows, each a list of integer cell values.
A value of `0` is dead; a positive value is alive. -/
abbrev Grid := List (List Int)

/-- Reading `grid[r][c]`.  An out-of-range read yields `0`; in JS it yields
`undefined`, and every read site only tests the value with `> 0`, on which
`undefined` and `0` agree. -/
def getCell (g : Grid) (r c : Nat) : Int :=
  (g.getD r []).getD c 0

/-- Writing `grid[r][c] = v` (for an in-range `(r, c)`; `List.set` is a no-op
out of range, where JS would throw, but no in-program write is out of range). -/
def setCell (g : Grid) (r c : Nat) (v : Int) : Grid :=
  g.set r ((g.getD r []).set c v)

/-- The grid builder embedding a doubly nested fill loop: cell `(i, j)` of the
result holds `f i j`. -/
def mkGrid (rows cols : Nat) (f : Nat → Nat → Int) : Grid :=
  (List.range rows).map fun i => (List.range cols).map fun j => f i j

/-- Embeds `createEmptyGrid`: a `rows × cols` grid of zeros
(`Array(rows).fill(null).map(() => Array(cols).fill(0))`). -/
def createEmptyGrid (rows cols : Nat) : Grid :=
  List.replicate rows (List.replicate cols 0)

/-- Embeds `countNeighbors(row, col)`: nested loops over offsets `i, j ∈ {-1, 0, 1}`,
skipping `(0, 0)`, incrementing a counter when the wrapped neighbor
`grid[(row + i + rows) % rows][(col + j + cols) % cols]` is alive.  The only
call sites pass `0 ≤ row < rows` and `0 ≤ col < cols`, so the JS `%`
(truncated remainder) acts on a nonnegative dividend and agrees with `Int`'s
`%` (Euclidean remainder) used here. -/
def countNeighbors (grid : Grid) (rows cols : Nat) (row col : Nat) : Nat :=
  ([-1, 0, 1] : List Int).foldl (fun count i =>
    ([-1, 0, 1] : List Int).foldl (fun count j =>
      if i = 0 ∧ j = 0 then count
      else if getCell grid (((row : Int) + i + rows) % (rows : Int)).toNat
          (((col : Int) + j + cols) % (cols : Int)).toNat > 0 then count + 1
      else count) count) 0

/-- Embeds `computeNextGeneration`: builds a fresh grid cell by cell.  Every
`countNeighbors` call reads the old `grid` only; writes go to the fresh
`newGrid`, so no neighbor read observes a new-generation write — in this
functional embedding that separation is intrinsic: `grid` is passed unchanged
to every `countNeighbors` call. -/
def computeNextGeneration (grid : Grid) (rows cols : Nat) : Grid :=
  mkGrid rows cols fun i j =>
    let neighbors := countNeighbors grid rows cols i j
    let isAlive := getCell grid i j > 0
    if isAlive ∧ (neighbors = 2 ∨ neighbors = 3) then (neighbors : Int)
    else if ¬isAlive ∧ neighbors = 3 then (neighbors : Int)
    else 0

/-- The loop iterations `(i, j)` of `computeNextGeneration` at which
`countNeighbors` is evaluated: all of `[0, rows) × [0, cols)` in row-major
order.  Empty exactly when `rows = 0` or `cols = 0`, in which case no `% rows`
or `% cols` is ever evaluated. -/
def generationCells (rows cols : Nat) : List (Nat × Nat) :=
  (List.range rows).flatMap fun i => (List.range cols).map fun j => (i, j)

/-- Embeds `randomizeGrid`: fresh empty grid, then every cell is set to
`Math.random() > 1 - RANDOM_DENSITY ? 3 : 0`.  The per-cell draws of
`Math.random()` (uniform on `[0, 1)`) are supplied as the outcome function
`rand`; the density is the `RANDOM_DENSITY` parameter. -/
def randomizeGrid (rows cols : Nat) (density : ℚ) (rand : Nat → Nat → ℚ) : Grid :=
  mkGrid rows cols fun i j => if rand i j > 1 - density then 3 else 0

/-- The reference density `RANDOM_DENSITY = 0.3`. -/
def RANDOM_DENSITY : ℚ := 3 / 10

/-- Embeds `toggleCell(row, col)`: bounds-checked flip of one cell, `0 → 3` and
positive `→ 0`; out of range is a silent no-op.  `row` and `col` are JS
numbers that may be negative, hence `Int`. -/
def toggleCell (grid : Grid) (rows cols : Nat) (row col : Int) : Grid :=
  if 0 ≤ row ∧ row < (rows : Int) ∧ 0 ≤ col ∧ col < (cols : Int) then
    setCell grid row.toNat col.toNat
      (if getCell grid row.toNat col.toNat > 0 then 0 else 3)
  else grid

/-- The grid portion of `resizeCanvas`: a fresh `newRows × newCols` empty
grid, then `grid[i][j] = oldGrid[i][j]` for `i < min(newRows, oldGrid.length)`
and `j < min(newCols, oldGrid[0].length)`, guarded by `oldGrid.length > 0`.
(The new dimensions come from the viewport, which is external.) -/
def resizeCanvas (oldGrid : Grid) (newRows newCols : Nat) : Grid :=
  mkGrid newRows newCols fun i j =>
    if 0 < oldGrid.length ∧ i < min newRows oldGrid.length ∧
        j < min newCols (oldGrid.getD 0 []).length then
      getCell oldGrid i j
    else 0

/-- The pacing decision of `animate(timestamp)`: given the callback timestamp,
the last-update timestamp, the speed (generations per second) and the playing
flag, decide whether to advance one generation and what `lastUpdate` becomes.
Timestamps and speed are JS numbers, embedded as `ℚ`. -/
def animate (timestamp lastUpdate speed : ℚ) (isPlaying : Bool) : Bool × ℚ :=
  if isPlaying then
    let interval := 1000 / speed
    if timestamp - lastUpdate ≥ interval then (true, timestamp)
    else (false, lastUpdate)
  else (false, lastUpdate)

/-- Predicate: `g` is a well-formed `rows × cols` grid (the shape every grid held by the
program has). -/
def gridDims (g : Grid) (rows cols : Nat) : Prop :=
  g.length = rows ∧ ∀ row ∈ g, row.length = cols

/-- The 8 Moore-neighborhood offsets `{-1, 0, 1}² \ {(0, 0)}`, as the spec
enumerates them. -/
def mooreOffsets : List (Int × Int) :=
  [(-1, -1), (-1, 0), (-1, 1), (0, -1), (0, 1), (1, -1), (1, 0), (1, 1)]

/-- Neighbor counting as the spec words it: the number of Moore offsets
`(i, j)` for which `grid[(row + i + rows) mod rows][(col + j + cols) mod cols]`
is alive. -/
def countNeighborsSpec (grid : Grid) (rows cols : Nat) (row col : Nat) : Nat :=
  mooreOffsets.countP fun p =>
    decide (getCell grid (((row : Int) + p.1 + rows) % (rows : Int)).toNat
      (((col : Int) + p.2 + cols) % (cols : Int)).toNat > 0)

/-- Every cell value of `g` is `0`, `2` or `3` — the data-model invariant:
dead, survivor count, or birth/toggle/randomize sentinel. -/
def cellValuesOK (g : Grid) : Prop :=
  ∀ row ∈ g, ∀ v ∈ row, v = 0 ∨ v = 2 ∨ v = 3

/-- States reachable from an initial empty grid by the program's grid
operations: generation advance, toggle, randomize (any density, any outcome
of the random source), clear, and resize. -/
inductive Reachable : Nat → Nat → Grid → Prop where
  | empty (rows cols : Nat) : Reachable rows cols (createEmptyGrid rows cols)
  | gen {rows cols : Nat} {g : Grid} : Reachable rows cols g →
      Reachable rows cols (computeNextGeneration g rows cols)
  | toggle {rows cols : Nat} {g : Grid} (row col : Int) : Reachable rows cols g →
      Reachable rows cols (toggleCell g rows cols row col)
  | random {rows cols : Nat} {g : Grid} (density : ℚ) (rand : Nat → Nat → ℚ) :
      Reachable rows cols g → Reachable rows cols (randomizeGrid rows cols density rand)
  | clear {rows cols : Nat} {g : Grid} : Reachable rows cols g →
      Reachable rows cols (createEmptyGrid rows cols)
  | resize {rows cols : Nat} {g : Grid} (newRows newCols : Nat) :
      Reachable rows cols g → Reachable newRows newCols (resizeCanvas g newRows newCols)

/-- The alive/dead pattern of a grid (forgetting the stored counts). -/
def aliveMask (g : Grid) : List (List Bool) :=
  g.map fun row => row.map fun v => decide (v > 0)

/-- A 5×5 grid holding a horizontal blinker at row 2, columns 1–3, with all
three cells stored as the toggle sentinel `3` (how a user paints it). -/
def blinkerH3 : Grid :=
  [[0, 0, 0, 0, 0],
   [0, 0, 0, 0, 0],
   [0, 3, 3, 3, 0],
   [0, 0, 0, 0, 0],
   [0, 0, 0, 0, 0]]

/-- The horizontal blinker with the stored values the rule itself produces:
births `3` at the ends, survivor count `2` at the center. -/
def blinkerH : Grid :=
  [[0, 0, 0, 0, 0],
   [0, 0, 0, 0, 0],
   [0, 3, 2, 3, 0],
   [0, 0, 0, 0, 0],
   [0, 0, 0, 0, 0]]

/-- The vertical blinker with rule-produced stored values. -/
def blinkerV : Grid :=
  [[0, 0, 0, 0, 0],
   [0, 0, 3, 0, 0],
   [0, 0, 2, 0, 0],
   [0, 0, 3, 0, 0],
   [0, 0, 0, 0, 0]]

/-! ## Helper lemmas -/

theorem length_mkGrid (rows cols : Nat) (f : Nat → Nat → Int) :
    (mkGrid rows cols f).length = rows := by
  simp [mkGrid]

theorem mem_mkGrid_length (rows cols : Nat) (f : Nat → Nat → Int) :
    ∀ row ∈ mkGrid rows cols f, row.length = cols := by
  intro row hrow
  simp only [mkGrid, List.mem_map] at hrow
  obtain ⟨i, _, rfl⟩ := hrow
  simp

theorem gridDims_mkGrid (rows cols : Nat) (f : Nat → Nat → Int) :
    gridDims (mkGrid rows cols f) rows cols :=
  ⟨length_mkGrid rows cols f, mem_mkGrid_length rows cols f⟩

theorem getCell_mkGrid (rows cols : Nat) (f : Nat → Nat → Int) {i j : Nat}
    (hi : i < rows) (hj : j < cols) :
    getCell (mkGrid rows cols f) i j = f i j := by
  simp [mkGrid, getCell, List.getD_eq_getElem?_getD, List.getElem?_map,
    List.getElem?_range, hi, hj]

example : createEmptyGrid 2 3 = [[0, 0, 0], [0, 0, 0]] := by decide
example : toggleCell (createEmptyGrid 2 2) 2 2 0 1 = [[0, 3], [0, 0]] := by decide
example : toggleCell (createEmptyGrid 2 2) 2 2 (-1) 0 = createEmptyGrid 2 2 := by decide
example : countNeighbors [[3, 0], [0, 3]] 2 2 0 0 = 4 := by decide
example : countNeighbors [[3]] 1 1 0 0 = 8 := by decide
example : countNeighborsSpec [[3]] 1 1 0 0 = 8 := by decide
example : computeNextGeneration blinkerH3 5 5 = blinkerV := by decide
example : computeNextGeneration blinkerV 5 5 = blinkerH := by decide
example : computeNextGeneration blinkerH 5 5 = blinkerV := by decide

/-- The new-generation value of cell `(i, j)`, written as in the source body. -/
theorem getCell_computeNextGeneration (grid : Grid) (rows cols : Nat) {i j : Nat}
    (hi : i < rows) (hj : j < cols) :
    getCell (computeNextGeneration grid rows cols) i j =
      (if getCell grid i j > 0 ∧
          (countNeighbors grid rows cols i j = 2 ∨ countNeighbors grid rows cols i j = 3) then
        (countNeighbors grid rows cols i j : Int)
      else if ¬(getCell grid i j > 0) ∧ countNeighbors grid rows cols i j = 3 then
        (countNeighbors grid rows cols i j : Int)
      else 0) :=
  getCell_mkGrid rows cols _ hi hj

/-- Inner loop of `countNeighbors` (offset `i` fixed): a fold that counts the
offsets `j` that are not skipped and whose neighbor is alive. -/
theorem foldl_inner (q : Int → Prop) [DecidablePred q] (i : Int) (n : ℕ) :
    (([-1, 0, 1] : List Int).foldl (fun count j =>
        if i = 0 ∧ j = 0 then count
        else if q j then count + 1 else count) n)
      = n + (([-1, 0, 1] : List Int).countP fun j => decide (¬(i = 0 ∧ j = 0) ∧ q j)) := by
  by_cases hi : i = 0 <;> by_cases hm : q (-1) <;> by_cases h0 : q 0 <;> by_cases hp : q 1 <;>
    simp [List.foldl_cons, List.countP_cons, hi, hm, h0, hp]

set_option maxHeartbeats 1000000 in
/-- The loop of `countNeighbors` computes exactly the spec's count over the
8 Moore offsets. -/
theorem countNeighbors_eq_spec (grid : Grid) (rows cols row col : Nat) :
    countNeighbors grid rows cols row col = countNeighborsSpec grid rows cols row col := by
  unfold countNeighbors
  simp only [foldl_inner]
  simp only [List.foldl_cons, List.foldl_nil, List.countP_cons, List.countP_nil,
    countNeighborsSpec, mooreOffsets, decide_eq_true_eq]
  norm_num
  split_ifs <;> omega

/-- Wrapping one step below the last index of an axis of extent `n` lands on
index `0`: `((n - 1) + 1 + n) % n = 0`. -/
theorem wrap_last_succ {n : Nat} (hn : 0 < n) :
    (((n - 1 : Nat) : Int) + 1 + (n : Nat)) % ((n : Nat) : Int) = 0 := by
  have hcast : ((n - 1 : Nat) : Int) = (n : Int) - 1 := by omega
  have h2 : ((n - 1 : Nat) : Int) + 1 + (n : Nat) = (n : Int) * 2 := by rw [hcast]; ring
  rw [h2, Int.mul_emod_right]

/-- Staying put wraps to the same index `0`: `(0 + 0 + n) % n = 0`. -/
theorem wrap_zero_offset (n : Nat) :
    (((0 : Nat) : Int) + 0 + (n : Nat)) % ((n : Nat) : Int) = 0 := by
  simp [Int.emod_self]

/-- Claim C1: `computeNextGeneration` builds a fresh `rows × cols` grid from the
previous generation's values alone (in the embedding `grid` is passed
unchanged to every neighbor read), and for every in-range cell of the data
model (value ≥ 0): alive with neighbor count 2 or 3 survives storing that
count, dead with count 3 is born storing 3, and every other cell becomes 0 —
Conway's B3/S23 with the stored value equal to the causing count. -/
theorem computeNextGeneration_rule (grid : Grid) (rows cols i j : Nat)
    (hi : i < rows) (hj : j < cols) (hnn : 0 ≤ getCell grid i j) :
    gridDims (computeNextGeneration grid rows cols) rows cols ∧
    (0 < getCell grid i j →
      (countNeighbors grid rows cols i j = 2 ∨ countNeighbors grid rows cols i j = 3) →
      getCell (computeNextGeneration grid rows cols) i j = countNeighbors grid rows cols i j) ∧
    (getCell grid i j = 0 → countNeighbors grid rows cols i j = 3 →
      getCell (computeNextGeneration grid rows cols) i j = 3) ∧
    (¬((0 < getCell grid i j ∧
          (countNeighbors grid rows cols i j = 2 ∨ countNeighbors grid rows cols i j = 3)) ∨
        (getCell grid i j = 0 ∧ countNeighbors grid rows cols i j = 3)) →
      getCell (computeNextGeneration grid rows cols) i j = 0) := by
  refine ⟨gridDims_mkGrid rows cols _, ?_, ?_, ?_⟩ <;>
    rw [getCell_computeNextGeneration grid rows cols hi hj]
  · intro halive hn
    rw [if_pos ⟨halive, hn⟩]
  · intro hdead hn
    rw [if_neg, if_pos ⟨by simp [hdead], hn⟩]
    · exact_mod_cast hn
    · rintro ⟨h0, -⟩
      omega
  · intro hother
    rw [if_neg, if_neg]
    · rintro ⟨hna, hn⟩
      exact hother (Or.inr ⟨by omega, hn⟩)
    · rintro ⟨h0, hn⟩
      exact hother (Or.inl ⟨h0, hn⟩)

/-- Claim C2: For every grid with positive dimensions and every in-range
`(row, col)`, `countNeighbors` returns a count in `[0, 8]` equal to the
number of the 8 Moore offsets whose wrapped neighbor
`grid[(row + i + rows) mod rows][(col + j + cols) mod cols]` is alive; the
literal modular wrap makes a live `(0, 0)` a counted neighbor of
`(rows-1, cols-1)`, `(0, cols-1)` and `(rows-1, 0)`, and on a 1×1 grid a
live cell is its own neighbor once per offset, giving count 8. -/
theorem countNeighbors_moore_wrap (grid : Grid) (rows cols row col : Nat)
    (hr : 0 < rows) (hc : 0 < cols) (hrow : row < rows) (hcol : col < cols) :
    countNeighbors grid rows cols row col = countNeighborsSpec grid rows cols row col ∧
    countNeighbors grid rows cols row col ≤ 8 ∧
    (0 < getCell grid 0 0 →
      0 < countNeighbors grid rows cols (rows - 1) (cols - 1) ∧
      0 < countNeighbors grid rows cols 0 (cols - 1) ∧
      0 < countNeighbors grid rows cols (rows - 1) 0) ∧
    (rows = 1 → cols = 1 → 0 < getCell grid 0 0 →
      countNeighbors grid rows cols row col = 8) := by
  refine ⟨countNeighbors_eq_spec grid rows cols row col, ?_, ?_, ?_⟩
  · rw [countNeighbors_eq_spec]
    exact List.countP_le_length _
  · intro hg
    have hR := wrap_last_succ hr
    have hC := wrap_last_succ hc
    have hR0 := wrap_zero_offset rows
    have hC0 := wrap_zero_offset cols
    refine ⟨?_, ?_, ?_⟩ <;>
      rw [countNeighbors_eq_spec, countNeighborsSpec] <;>
      rw [List.countP_pos_iff]
    · exact ⟨(1, 1), by decide, by simp only [decide_eq_true_eq]; simpa [hR, hC] using hg⟩
    · exact ⟨(0, 1), by decide, by simp only [decide_eq_true_eq]; simpa [hR0, hC] using hg⟩
    · exact ⟨(1, 0), by decide, by simp only [decide_eq_true_eq]; simpa [hR, hC0] using hg⟩
  · intro hrows hcols hg
    subst hrows hcols
    interval_cases row
    interval_cases col
    rw [countNeighbors_eq_spec, countNeighborsSpec]
    simp [mooreOffsets, List.countP_cons, Int.emod_one, hg]

/-- Witness for C2 on a concrete grid: a live cell at `(0, 0)` of a 2×2 grid
is a counted neighbor of the opposite corner `(1, 1)`. -/
theorem countNeighbors_moore_wrap_witness :
    (0 : Nat) < 2 ∧ 0 < getCell [[3, 0], [0, 0]] 0 0 ∧
    0 < countNeighbors [[3, 0], [0, 0]] 2 2 1 1 :=
  ⟨by decide, by decide,
    ((countNeighbors_moore_wrap [[3, 0], [0, 0]] 2 2 0 0 (by decide) (by decide) (by decide)
      (by decide)).2.2.1 (by decide)).1⟩

/-- Witness for C1 on a concrete grid: the center of the vertical blinker is
alive with 2 neighbors and survives storing 2. -/
theorem computeNextGeneration_rule_witness :
    (2 : Nat) < 5 ∧ (0 : Int) ≤ getCell blinkerV 2 2 ∧
    getCell (computeNextGeneration blinkerV 5 5) 2 2 = countNeighbors blinkerV 5 5 2 2 :=
  ⟨by decide, by decide,
    (computeNextGeneration_rule blinkerV 5 5 2 2 (by decide) (by decide) (by decide)).2.1
      (by decide) (by decide)⟩

/-- Claim C3: The pacing step of `animate`: when not playing nothing advances
and `lastUpdate` is unchanged; when playing, one advance happens exactly when
the elapsed time reaches `1000 / speed` milliseconds, and then `lastUpdate`
becomes the callback timestamp. -/
theorem animate_pacing (timestamp lastUpdate speed : ℚ) (hs : 0 < speed) (isPlaying : Bool) :
    (isPlaying = false → animate timestamp lastUpdate speed isPlaying = (false, lastUpdate)) ∧
    (isPlaying = true → timestamp - lastUpdate ≥ 1000 / speed →
      animate timestamp lastUpdate speed isPlaying = (true, timestamp)) ∧
    (isPlaying = true → timestamp - lastUpdate < 1000 / speed →
      animate timestamp lastUpdate speed isPlaying = (false, lastUpdate)) := by
  refine ⟨?_, ?_, ?_⟩
  · rintro rfl
    simp [animate]
  · rintro rfl h
    simp only [animate, if_true]
    rw [if_pos h]
  · rintro rfl h
    simp only [animate, if_true]
    rw [if_neg (not_le.mpr h)]

/-- Witness for C3: at speed 2 gen/s the interval is 500 ms, so 600 ms of
elapsed time triggers an advance. -/
theorem animate_pacing_witness :
    (0 : ℚ) < 2 ∧ animate 600 0 2 true = (true, 600) :=
  ⟨by norm_num, (animate_pacing 600 0 2 (by norm_num) true).2.1 rfl (by norm_num)⟩

/-- A well-formed grid's row `r`, read the way `getCell` reads it, has `cols`
entries. -/
theorem getD_row_length {g : Grid} {rows cols r : Nat} (hd : gridDims g rows cols)
    (hr : r < rows) : (g.getD r []).length = cols := by
  have hrl : r < g.length := hd.1 ▸ hr
  rw [List.getD_eq_getElem?_getD, List.getElem?_eq_getElem hrl, Option.getD_some]
  exact hd.2 _ (List.getElem_mem hrl)

/-- Reading back the cell just written by an in-range `setCell`. -/
theorem getCell_setCell_same {g : Grid} {r c : Nat} (hr : r < g.length)
    (hc : c < (g.getD r []).length) (v : Int) :
    getCell (setCell g r c v) r c = v := by
  unfold getCell setCell
  have h1 : (List.set g r ((g.getD r []).set c v)).getD r [] = (g.getD r []).set c v := by
    rw [List.getD_eq_getElem?_getD, List.getElem?_set_self hr, Option.getD_some]
  rw [h1, List.getD_eq_getElem?_getD, List.getElem?_set_self hc, Option.getD_some]

/-- An in-range `setCell` preserves the grid's dimensions. -/
theorem gridDims_setCell {g : Grid} {rows cols : Nat} (hd : gridDims g rows cols)
    {r : Nat} (hr : r < rows) (c : Nat) (v : Int) :
    gridDims (setCell g r c v) rows cols := by
  refine ⟨by simp [setCell, hd.1], ?_⟩
  intro row' hrow'
  rcases List.mem_or_eq_of_mem_set hrow' with h | h
  · exact hd.2 _ h
  · rw [h, List.length_set]
    exact getD_row_length hd hr

/-- The in-range case of `toggleCell`, at the toggled cell: `0` becomes the
sentinel `3` and any positive value becomes `0`. -/
theorem getCell_toggleCell {grid : Grid} {rows cols : Nat} {row col : Int}
    (hd : gridDims grid rows cols) (h0r : 0 ≤ row) (hrr : row < (rows : Int))
    (h0c : 0 ≤ col) (hcc : col < (cols : Int)) :
    getCell (toggleCell grid rows cols row col) row.toNat col.toNat =
      if 0 < getCell grid row.toNat col.toNat then 0 else 3 := by
  unfold toggleCell
  rw [if_pos ⟨h0r, hrr, h0c, hcc⟩]
  have hrn : row.toNat < rows := by omega
  have hr : row.toNat < grid.length := by rw [hd.1]; omega
  have hc : col.toNat < (grid.getD row.toNat []).length := by
    rw [getD_row_length hd hrn]
    omega
  rw [getCell_setCell_same hr hc]

/-- Toggling keeps the grid well formed. -/
theorem gridDims_toggleCell {grid : Grid} {rows cols : Nat} (row col : Int)
    (hd : gridDims grid rows cols) :
    gridDims (toggleCell grid rows cols row col) rows cols := by
  unfold toggleCell
  by_cases h : 0 ≤ row ∧ row < (rows : Int) ∧ 0 ≤ col ∧ col < (cols : Int)
  · rw [if_pos h]
    have hrn : row.toNat < rows := by omega
    exact gridDims_setCell hd hrn _ _
  · rw [if_neg h]
    exact hd

/-- Out of range, `toggleCell` returns the grid untouched. -/
theorem toggleCell_out_of_range {grid : Grid} {rows cols : Nat} {row col : Int}
    (h : row < 0 ∨ (rows : Int) ≤ row ∨ col < 0 ∨ (cols : Int) ≤ col) :
    toggleCell grid rows cols row col = grid := by
  unfold toggleCell
  rw [if_neg (by omega)]

/-- Claim C4: `toggleCell` is a silent no-op for any out-of-range `(row, col)`
(including negative indices), and in range it flips the cell: value `0`
becomes the sentinel `3`, any positive value becomes `0`. -/
theorem toggleCell_spec (grid : Grid) (rows cols : Nat) (row col : Int)
    (hd : gridDims grid rows cols) :
    ((row < 0 ∨ (rows : Int) ≤ row ∨ col < 0 ∨ (cols : Int) ≤ col) →
      toggleCell grid rows cols row col = grid) ∧
    (0 ≤ row → row < (rows : Int) → 0 ≤ col → col < (cols : Int) →
      (getCell grid row.toNat col.toNat = 0 →
        getCell (toggleCell grid rows cols row col) row.toNat col.toNat = 3) ∧
      (0 < getCell grid row.toNat col.toNat →
        getCell (toggleCell grid rows cols row col) row.toNat col.toNat = 0)) := by
  refine ⟨toggleCell_out_of_range, ?_⟩
  intro h0r hrr h0c hcc
  rw [getCell_toggleCell hd h0r hrr h0c hcc]
  constructor
  · intro hz
    rw [if_neg (by omega)]
  · intro hpos
    rw [if_pos hpos]

/-- Witness for C4: toggling the single dead cell of a 1×1 grid makes it 3. -/
theorem toggleCell_spec_witness :
    getCell [[(0 : Int)]] 0 0 = 0 ∧ getCell (toggleCell [[(0 : Int)]] 1 1 0 0) 0 0 = 3 :=
  ⟨by decide,
    ((toggleCell_spec [[(0 : Int)]] 1 1 0 0 ⟨by decide, by decide⟩).2 (by decide) (by decide)
      (by decide) (by decide)).1 (by decide)⟩

/-- Claim C5: Toggling a dead in-range cell twice returns it to its original
value `0` (dead → alive → dead), and toggling any out-of-range coordinate is
a no-op. -/
theorem toggleCell_double (grid : Grid) (rows cols : Nat) (row col : Int)
    (hd : gridDims grid rows cols) (h0r : 0 ≤ row) (hrr : row < (rows : Int))
    (h0c : 0 ≤ col) (hcc : col < (cols : Int))
    (hz : getCell grid row.toNat col.toNat = 0) :
    getCell (toggleCell (toggleCell grid rows cols row col) rows cols row col)
      row.toNat col.toNat = 0 ∧
    ∀ r c : Int, (r < 0 ∨ (rows : Int) ≤ r ∨ c < 0 ∨ (cols : Int) ≤ c) →
      toggleCell grid rows cols r c = grid := by
  refine ⟨?_, fun r c h => toggleCell_out_of_range h⟩
  have hd' := gridDims_toggleCell row col hd
  have h1 : getCell (toggleCell grid rows cols row col) row.toNat col.toNat = 3 := by
    rw [getCell_toggleCell hd h0r hrr h0c hcc, if_neg (by omega)]
  rw [getCell_toggleCell hd' h0r hrr h0c hcc, h1]
  norm_num

/-- Witness for C5: dead → alive → dead on the 1×1 grid. -/
theorem toggleCell_double_witness :
    getCell [[(0 : Int)]] 0 0 = 0 ∧
    getCell (toggleCell (toggleCell [[(0 : Int)]] 1 1 0 0) 1 1 0 0) 0 0 = 0 :=
  ⟨by decide,
    (toggleCell_double [[(0 : Int)]] 1 1 0 0 ⟨by decide, by decide⟩ (by decide) (by decide)
      (by decide) (by decide) (by decide)).1⟩

/-- Claim C6: Resize produces a fresh well-formed `newRows × newCols` grid:
inside the overlap `min(oldRows, newRows) × min(oldCols, newCols)` it copies
the old cell value at the same coordinates, and every cell outside the
overlap is dead. -/
theorem resizeCanvas_spec (oldGrid : Grid) (oldRows oldCols newRows newCols : Nat)
    (hd : gridDims oldGrid oldRows oldCols) (i j : Nat)
    (hi : i < newRows) (hj : j < newCols) :
    gridDims (resizeCanvas oldGrid newRows newCols) newRows newCols ∧
    (i < min oldRows newRows → j < min oldCols newCols →
      getCell (resizeCanvas oldGrid newRows newCols) i j = getCell oldGrid i j) ∧
    (¬(i < min oldRows newRows ∧ j < min oldCols newCols) →
      getCell (resizeCanvas oldGrid newRows newCols) i j = 0) := by
  have hlen : oldGrid.length = oldRows := hd.1
  refine ⟨gridDims_mkGrid _ _ _, ?_, ?_⟩
  · intro hio hjo
    have h0R : 0 < oldRows := by omega
    have hrow0 : (oldGrid.getD 0 []).length = oldCols := getD_row_length hd h0R
    unfold resizeCanvas
    rw [getCell_mkGrid newRows newCols _ hi hj, if_pos]
    refine ⟨by omega, by rw [hlen]; omega, by rw [hrow0]; omega⟩
  · intro hout
    unfold resizeCanvas
    rw [getCell_mkGrid newRows newCols _ hi hj]
    by_cases hb : 0 < oldGrid.length
    · have h0R : 0 < oldRows := by omega
      have hrow0 : (oldGrid.getD 0 []).length = oldCols := getD_row_length hd h0R
      rw [if_neg]
      rintro ⟨-, hB, hC⟩
      rw [hlen] at hB
      rw [hrow0] at hC
      exact hout ⟨by omega, by omega⟩
    · rw [if_neg]
      rintro ⟨hA, -, -⟩
      exact hb hA

/-- Witness for C6: growing a 1×1 live grid to 2×2 keeps the live cell at
`(0, 0)` and the new cell `(1, 1)` dead. -/
theorem resizeCanvas_spec_witness :
    getCell (resizeCanvas [[(3 : Int)]] 2 2) 0 0 = 3 ∧
    getCell (resizeCanvas [[(3 : Int)]] 2 2) 1 1 = 0 :=
  ⟨by
    have h := (resizeCanvas_spec [[(3 : Int)]] 1 1 2 2 ⟨by decide, by decide⟩ 0 0 (by decide)
      (by decide)).2.1 (by decide) (by decide)
    rw [h]
    decide,
   (resizeCanvas_spec [[(3 : Int)]] 1 1 2 2 ⟨by decide, by decide⟩ 1 1 (by decide)
      (by decide)).2.2 (by decide)⟩

/-- Claim C7: With `rows = 0` or `cols = 0` the generation pass iterates over no
cell at all — `generationCells`, the list of loop iterations at which
`countNeighbors` (and hence `% rows` / `% cols`) would be evaluated, is empty
— and `computeNextGeneration` returns the zero-dimension empty grid without
error. -/
theorem computeNextGeneration_zero_dims (grid : Grid) (rows cols : Nat)
    (h : rows = 0 ∨ cols = 0) :
    generationCells rows cols = [] ∧
    computeNextGeneration grid rows cols = createEmptyGrid rows cols := by
  rcases h with h | h <;> subst h
  · simp [generationCells, computeNextGeneration, mkGrid, createEmptyGrid]
  · refine ⟨by simp [generationCells], ?_⟩
    unfold computeNextGeneration mkGrid createEmptyGrid
    simp only [List.range_zero, List.map_nil, List.replicate_zero]
    induction rows with
    | zero => rfl
    | succ k ih =>
      rw [List.range_succ, List.map_append, ih, List.replicate_succ']
      rfl

/-- Witness for C7: a 0×5 grid advances to the empty grid. -/
theorem computeNextGeneration_zero_dims_witness :
    generationCells 0 5 = [] ∧ computeNextGeneration [] 0 5 = createEmptyGrid 0 5 :=
  computeNextGeneration_zero_dims [] 0 5 (Or.inl rfl)

/-- Claim C9, amended: `randomizeGrid` yields a fresh `rows × cols` grid whose
cell `(i, j)` is alive with value 3 exactly when its draw exceeds
`1 - density`: with density 0 every cell is dead for every outcome in
`[0, 1)`; with density 1 a cell is alive with value 3 whenever its draw is
strictly positive (a draw of exactly 0 leaves it dead, which is why the
original claim fails). -/
theorem randomizeGrid_spec (rows cols : Nat) (density : ℚ) (rand : Nat → Nat → ℚ)
    (i j : Nat) (hi : i < rows) (hj : j < cols) :
    gridDims (randomizeGrid rows cols density rand) rows cols ∧
    getCell (randomizeGrid rows cols density rand) i j
      = (if rand i j > 1 - density then 3 else 0) ∧
    (density = 0 → rand i j < 1 → getCell (randomizeGrid rows cols density rand) i j = 0) ∧
    (density = 1 → 0 < rand i j → getCell (randomizeGrid rows cols density rand) i j = 3) := by
  have hg : getCell (randomizeGrid rows cols density rand) i j
      = (if rand i j > 1 - density then 3 else 0) := by
    unfold randomizeGrid
    exact getCell_mkGrid _ _ _ hi hj
  refine ⟨gridDims_mkGrid _ _ _, hg, ?_, ?_⟩
  · rintro rfl hlt
    rw [hg, if_neg]
    push_neg
    linarith
  · rintro rfl hpos
    rw [hg, if_pos (by linarith)]

/-- Witness for C9's amended theorem: with density 1 and a draw of 1/2 the
single cell of a 1×1 grid comes out alive with value 3. -/
theorem randomizeGrid_spec_witness :
    (0 : Nat) < 1 ∧ getCell (randomizeGrid 1 1 1 (fun _ _ => 1 / 2)) 0 0 = 3 :=
  ⟨by decide,
    (randomizeGrid_spec 1 1 1 (fun _ _ => 1 / 2) 0 0 (by decide) (by decide)).2.2.2 rfl
      (by norm_num)⟩

/-- Counterexample to C9 as stated: a draw of exactly 0 is a legitimate
outcome of `Math.random()` (uniform on `[0, 1)`), yet with density 1.0 the
test `0 > 1 - 1` fails and the cell stays dead, so density 1.0 does not yield
an all-alive grid for every outcome of the random source. -/
theorem randomizeGrid_density_one_counterexample :
    (0 : ℚ) ≤ 0 ∧ (0 : ℚ) < 1 ∧
    getCell (randomizeGrid 1 1 1 (fun _ _ => 0)) 0 0 = 0 ∧
    getCell (randomizeGrid 1 1 1 (fun _ _ => 0)) 0 0 ≠ 3 := by
  have h : getCell (randomizeGrid 1 1 1 (fun _ _ => 0)) 0 0 = 0 := by
    norm_num [randomizeGrid, mkGrid, getCell]
  exact ⟨le_refl 0, by norm_num, h, by rw [h]; norm_num⟩

/-- The empty grid satisfies the cell-value invariant. -/
theorem cellValuesOK_createEmptyGrid (rows cols : Nat) :
    cellValuesOK (createEmptyGrid rows cols) := by
  intro row hrow v hv
  rw [List.eq_of_mem_replicate hrow] at hv
  exact Or.inl (List.eq_of_mem_replicate hv)

/-- A built grid whose every cell value is 0, 2 or 3 satisfies the invariant. -/
theorem cellValuesOK_mkGrid (rows cols : Nat) (f : Nat → Nat → Int)
    (hf : ∀ i j, f i j = 0 ∨ f i j = 2 ∨ f i j = 3) :
    cellValuesOK (mkGrid rows cols f) := by
  intro row hrow v hv
  simp only [mkGrid, List.mem_map] at hrow
  obtain ⟨i, -, rfl⟩ := hrow
  simp only [List.mem_map] at hv
  obtain ⟨j, -, rfl⟩ := hv
  exact hf i j

/-- An in-range `getD` read is a member of the list. -/
theorem getD_self_mem {α : Type} {l : List α} {n : Nat} (h : n < l.length) (d : α) :
    l.getD n d ∈ l := by
  rw [List.getD_eq_getElem?_getD, List.getElem?_eq_getElem h, Option.getD_some]
  exact List.getElem_mem h

/-- Every value `getCell` can read from an invariant-satisfying grid is 0, 2
or 3 (out-of-range reads give 0). -/
theorem getCell_values {g : Grid} (hg : cellValuesOK g) (i j : Nat) :
    getCell g i j = 0 ∨ getCell g i j = 2 ∨ getCell g i j = 3 := by
  unfold getCell
  by_cases hr : i < g.length
  · by_cases hc : j < (g.getD i []).length
    · exact hg _ (getD_self_mem hr []) _ (getD_self_mem hc 0)
    · rw [List.getD_eq_default _ _ (Nat.le_of_not_lt hc)]
      exact Or.inl rfl
  · have h0 : g.getD i [] = [] := List.getD_eq_default _ _ (Nat.le_of_not_lt hr)
    rw [h0]
    simp

/-- Writing with `setCell` a value 0, 2 or 3 preserves the invariant. -/
theorem cellValuesOK_setCell {g : Grid} (hg : cellValuesOK g) (r c : Nat) (v : Int)
    (hv : v = 0 ∨ v = 2 ∨ v = 3) : cellValuesOK (setCell g r c v) := by
  intro row hrow w hw
  rcases List.mem_or_eq_of_mem_set hrow with h | h
  · exact hg _ h _ hw
  · subst h
    rcases List.mem_or_eq_of_mem_set hw with h2 | h2
    · by_cases hr : r < g.length
      · exact hg _ (getD_self_mem hr []) _ h2
      · rw [List.getD_eq_default _ _ (Nat.le_of_not_lt hr)] at h2
        exact absurd h2 (List.not_mem_nil w)
    · exact h2 ▸ hv

/-- Toggling preserves the invariant: it writes only 0 or 3. -/
theorem cellValuesOK_toggleCell {g : Grid} (rows cols : Nat) (row col : Int)
    (hg : cellValuesOK g) : cellValuesOK (toggleCell g rows cols row col) := by
  unfold toggleCell
  by_cases h : 0 ≤ row ∧ row < (rows : Int) ∧ 0 ≤ col ∧ col < (cols : Int)
  · rw [if_pos h]
    apply cellValuesOK_setCell hg
    split_ifs <;> simp
  · rw [if_neg h]
    exact hg

/-- Claim C8: In every state reachable from an initial empty grid by generation
advances, toggles, randomizations, clears and resizes, every cell value is 0,
2 or 3: 3 when toggled alive, 2 or 3 when surviving, 3 when born, 3 when
randomized alive, 0 when dead. -/
theorem reachable_cell_values {rows cols : Nat} {g : Grid} (h : Reachable rows cols g) :
    cellValuesOK g := by
  induction h with
  | empty rows cols => exact cellValuesOK_createEmptyGrid rows cols
  | gen _ ih =>
    unfold computeNextGeneration
    apply cellValuesOK_mkGrid
    intro i j
    dsimp only
    split_ifs with h1 h2
    · rcases h1.2 with h | h <;> rw [h] <;> simp
    · rw [h2.2]
      simp
    · exact Or.inl rfl
  | toggle row col _ ih => exact cellValuesOK_toggleCell _ _ row col ih
  | random density rand _ _ =>
    unfold randomizeGrid
    apply cellValuesOK_mkGrid
    intro i j
    split_ifs <;> simp
  | clear _ _ => exact cellValuesOK_createEmptyGrid _ _
  | resize newRows newCols _ ih =>
    unfold resizeCanvas
    apply cellValuesOK_mkGrid
    intro i j
    split_ifs with h1
    · exact getCell_values ih i j
    · exact Or.inl rfl

/-- Witness for C8: the state reached by toggling `(0, 1)` on an empty 2×2
grid satisfies the invariant. -/
theorem reachable_cell_values_witness :
    cellValuesOK (toggleCell (createEmptyGrid 2 2) 2 2 0 1) :=
  reachable_cell_values (Reachable.toggle 0 1 (Reachable.empty 2 2))

/-- Counterexample to C10 as stated: painting the horizontal blinker with the
toggle sentinel value 3 in all three cells, two generations do NOT return the
exact grid state — the center cell comes back as a survivor storing 2, not 3
(only the alive/dead pattern returns). -/
theorem blinker_exact_return_counterexample :
    computeNextGeneration (computeNextGeneration blinkerH3 5 5) 5 5 ≠ blinkerH3 := by
  decide

/-- Claim C10, amended: On a 5×5 grid the horizontal blinker becomes the
vertical column after one generation and the horizontal row again after two;
the alive/dead pattern returns to the original after exactly 2 generations
for the all-3 painted blinker, and the full grid state (stored values
included) is 2-periodic once the stored values are the rule-produced ones
(3 at the ends, 2 at the center). -/
theorem blinker_period_two :
    computeNextGeneration blinkerH3 5 5 = blinkerV ∧
    computeNextGeneration blinkerV 5 5 = blinkerH ∧
    computeNextGeneration blinkerH 5 5 = blinkerV ∧
    computeNextGeneration (computeNextGeneration blinkerH 5 5) 5 5 = blinkerH ∧
    aliveMask (computeNextGeneration (computeNextGeneration blinkerH3 5 5) 5 5)
      = aliveMask blinkerH3 :=
  ⟨by decide, by decide, by decide, by decide, by decide⟩

end OctoPulse
